import Mathlib

/-!
Shallow embedding of the meshcat-rs scene-graph assembly and wire-encoding
core (src/types.rs, src/utils.rs).  Floating point scalars (`f64`) are
modelled as exact rationals `ℚ`; machine integers (`u32`, `usize`) as `Nat`;
`Uuid` values as `Nat` identifiers supplied externally (the Rust code draws
them from `Uuid::new_v4()`).  Poses (`nalgebra::Isometry3<f64>`) are modelled
as a rotation matrix plus translation with nalgebra's composition rule, and
`to_homogeneous` produces the 4x4 block matrix.
-/

/-- 128-bit random identifiers, modelled as `Nat`. -/
abbrev Uuid := Nat

/-- A 3-vector of scalars (`nalgebra::Vector3<f64>`). -/
structure Vec3Q where
  x : ℚ
  y : ℚ
  z : ℚ
deriving DecidableEq, Repr

/-- A 4-vector of scalars (`nalgebra::Vector4<f64>`). -/
structure Vec4Q where
  x : ℚ
  y : ℚ
  z : ℚ
  w : ℚ
deriving DecidableEq, Repr

/-- A 3x3 matrix of scalars, row major fields. -/
structure Mat3 where
  m11 : ℚ
  m12 : ℚ
  m13 : ℚ
  m21 : ℚ
  m22 : ℚ
  m23 : ℚ
  m31 : ℚ
  m32 : ℚ
  m33 : ℚ
deriving DecidableEq, Repr

/-- A 4x4 homogeneous matrix (`nalgebra::Matrix4<f64>`), row major fields. -/
structure Mat4 where
  m11 : ℚ
  m12 : ℚ
  m13 : ℚ
  m14 : ℚ
  m21 : ℚ
  m22 : ℚ
  m23 : ℚ
  m24 : ℚ
  m31 : ℚ
  m32 : ℚ
  m33 : ℚ
  m34 : ℚ
  m41 : ℚ
  m42 : ℚ
  m43 : ℚ
  m44 : ℚ
deriving DecidableEq, Repr

def Mat3.mul (a b : Mat3) : Mat3 :=
  ⟨a.m11 * b.m11 + a.m12 * b.m21 + a.m13 * b.m31,
   a.m11 * b.m12 + a.m12 * b.m22 + a.m13 * b.m32,
   a.m11 * b.m13 + a.m12 * b.m23 + a.m13 * b.m33,
   a.m21 * b.m11 + a.m22 * b.m21 + a.m23 * b.m31,
   a.m21 * b.m12 + a.m22 * b.m22 + a.m23 * b.m32,
   a.m21 * b.m13 + a.m22 * b.m23 + a.m23 * b.m33,
   a.m31 * b.m11 + a.m32 * b.m21 + a.m33 * b.m31,
   a.m31 * b.m12 + a.m32 * b.m22 + a.m33 * b.m32,
   a.m31 * b.m13 + a.m32 * b.m23 + a.m33 * b.m33⟩

def Mat3.mulVec (m : Mat3) (v : Vec3Q) : Vec3Q :=
  ⟨m.m11 * v.x + m.m12 * v.y + m.m13 * v.z,
   m.m21 * v.x + m.m22 * v.y + m.m23 * v.z,
   m.m31 * v.x + m.m32 * v.y + m.m33 * v.z⟩

def Vec3Q.add (a b : Vec3Q) : Vec3Q := ⟨a.x + b.x, a.y + b.y, a.z + b.z⟩

/-- A rigid transform (`nalgebra::Isometry3<f64>`): rotation plus translation. -/
structure Iso3 where
  rot : Mat3
  trans : Vec3Q
deriving DecidableEq, Repr

/-- nalgebra's isometry composition: `(a * b)` applies `b` first, then `a`. -/
def Iso3.comp (a b : Iso3) : Iso3 :=
  ⟨a.rot.mul b.rot, (a.rot.mulVec b.trans).add a.trans⟩

def Iso3.identity : Iso3 := ⟨⟨1, 0, 0, 0, 1, 0, 0, 0, 1⟩, ⟨0, 0, 0⟩⟩

/-- `Isometry3::to_homogeneous`: rotation block, translation column, `0 0 0 1` row. -/
def Iso3.toHomogeneous (i : Iso3) : Mat4 :=
  ⟨i.rot.m11, i.rot.m12, i.rot.m13, i.trans.x,
   i.rot.m21, i.rot.m22, i.rot.m23, i.trans.y,
   i.rot.m31, i.rot.m32, i.rot.m33, i.trans.z,
   0, 0, 0, 1⟩

/-- The cylinder correction used by the assembler:
`Isometry3::from_parts(Translation3::new(0,0,0), UnitQuaternion::from_euler_angles(FRAC_PI_2, 0, 0))`,
i.e. the rotation by 90 degrees about the X axis (roll = pi/2, no pitch, no
yaw), modelled exactly: `cos(pi/2) = 0`, `sin(pi/2) = 1`. -/
def rotX90 : Iso3 := ⟨⟨1, 0, 0, 0, 0, -1, 0, 1, 0⟩, ⟨0, 0, 0⟩⟩

/-! ## Entity model (src/types.rs) -/

/-- `struct Metadata { metadata_type, version }` with default `("Object", 4.5)`. -/
structure Metadata where
  metadata_type : String
  version : ℚ
deriving DecidableEq, Repr

def Metadata.default : Metadata := ⟨"Object", 9 / 2⟩

/-- `nalgebra::Matrix3xX<f64>`: 3 rows, X columns, held column by column. -/
abbrev Matrix3xX := List Vec3Q

/-- `Matrix3xX::as_slice`: the raw element sequence in column-major order,
with no shape metadata. -/
def matrixAsSlice : Matrix3xX → List ℚ
  | [] => []
  | c :: cols => c.x :: c.y :: c.z :: matrixAsSlice cols

/-- `struct BufferGeometryAttribute`. -/
structure BufferGeometryAttribute where
  item_size : Nat
  attribute_type : String
  array : Matrix3xX
  normalized : Bool
deriving DecidableEq, Repr

/-- `struct BufferGeometryAttributes`. -/
structure BufferGeometryAttributes where
  position : BufferGeometryAttribute
  color : BufferGeometryAttribute
  normal : Option BufferGeometryAttribute
  uv : Option BufferGeometryAttribute
deriving DecidableEq, Repr

/-- `struct BufferGeometryData`. -/
structure BufferGeometryData where
  attributes : BufferGeometryAttributes
deriving DecidableEq, Repr

/-- `enum GeometryType` (src/types.rs), all fourteen variants. -/
inductive GeometryType where
  | Buffer (data : BufferGeometryData)
  | Mesh (format : String) (data : String)
  | Box (width : ℚ) (height : ℚ) (depth : ℚ)
  | Circle (radius : ℚ) (segments : Nat) (theta_start : ℚ) (theta_length : ℚ)
  | Cone (radius : ℚ) (height : ℚ) (radial_segments : Nat) (height_segments : Nat)
      (theta_start : ℚ) (theta_length : ℚ)
  | Cylinder (radius_top : ℚ) (radius_bottom : ℚ) (height : ℚ)
      (radial_segments : Nat) (height_segments : Nat)
      (theta_start : ℚ) (theta_length : ℚ)
  | Dodecahedron (radius : ℚ) (detail : Nat)
  | Icosahedron (radius : ℚ) (detail : Nat)
  | Octahedron (radius : ℚ) (detail : Nat)
  | Plane (width : ℚ) (height : ℚ) (width_segments : Nat) (height_segments : Nat)
  | Ring (inner_radius : ℚ) (outer_radius : ℚ) (theta_segments : Nat) (phi_segments : Nat)
      (theta_start : ℚ) (theta_length : ℚ)
  | Sphere (radius : ℚ) (width_segments : Nat) (height_segments : Nat)
  | Tetrahedron (radius : ℚ) (detail : Nat)
  | Torus (radius : ℚ) (tube : ℚ) (radial_segments : Nat) (tubular_segments : Nat)
deriving DecidableEq, Repr

def GeometryType.isCylinder : GeometryType → Bool
  | .Cylinder .. => true
  | _ => false

/-- `enum MaterialType`. -/
inductive MaterialType where
  | MeshBasic
  | MeshPhong
  | MeshLambert
  | MeshToon
  | LineBasic
  | Points (size : ℚ)
deriving DecidableEq, Repr

/-- `struct Material` (src/types.rs).  The `map` field's builder setter is
skipped, so every builder-made `Material` starts with `map = none`. -/
structure Material where
  uuid : Uuid
  material_type : MaterialType
  color : Option Nat
  linewidth : Option ℚ
  opacity : Option ℚ
  reflectivity : Option ℚ
  side : Option Nat
  transparent : Option Bool
  vertex_colors : Option Bool
  wireframe : Option Bool
  wireframe_line_width : Option ℚ
  map : Option Uuid
deriving DecidableEq, Repr

/-- `Material::builder().build()` with every optional decoration defaulted:
`material_type = MeshPhong`, `side = Some(2)`, `map = None` (setter skipped). -/
def Material.builderDefault (uuid : Uuid) : Material :=
  ⟨uuid, .MeshPhong, none, none, none, none, some 2, none, none, none, none, none⟩

/-- `enum TextureType`: text overlay or image mapped.  `repeat` and `wrap`
are two-element `u32` arrays, modelled as pairs. -/
inductive TextureType where
  | Text (text_type : String) (text : String) (font_size : Nat) (font_face : String)
  | Image (image : Option Uuid) (rep : Nat × Nat) (wrap : Nat × Nat)
deriving DecidableEq, Repr

/-- `TextureType::new_text`. -/
def TextureType.new_text (text : String) (font_size : Nat) (font_face : String) : TextureType :=
  .Text "_text" text font_size font_face

/-- `TextureType::new_image`. -/
def TextureType.new_image : TextureType :=
  .Image none (1, 1) (1001, 1001)

/-- `struct Texture`. -/
structure Texture where
  uuid : Uuid
  texture_type : TextureType
deriving DecidableEq, Repr

/-- `struct Image`: identifier plus a data-URI string (held as characters). -/
structure Image where
  uuid : Uuid
  url : List Char
deriving DecidableEq, Repr

/-- `enum ObjectType`. -/
inductive ObjectType where
  | Mesh
  | Points
  | LineSegments
deriving DecidableEq, Repr

/-- `struct Object` (src/types.rs): identifier, optional material and geometry
references, owned children, homogeneous pose matrix, variant. -/
inductive Object where
  | mk (uuid : Uuid) (material : Option Uuid) (geometry : Option Uuid)
      (children : List Object) (matrix : Mat4) (object_type : ObjectType)

def Object.uuid : Object → Uuid
  | .mk u _ _ _ _ _ => u

def Object.material : Object → Option Uuid
  | .mk _ m _ _ _ _ => m

def Object.geometry : Object → Option Uuid
  | .mk _ _ g _ _ _ => g

def Object.children : Object → List Object
  | .mk _ _ _ c _ _ => c

def Object.matrix : Object → Mat4
  | .mk _ _ _ _ x _ => x

def Object.object_type : Object → ObjectType
  | .mk _ _ _ _ _ t => t

@[simp] theorem Object.uuid_mk (u m g c x t) : (Object.mk u m g c x t).uuid = u := rfl

@[simp] theorem Object.material_mk (u m g c x t) : (Object.mk u m g c x t).material = m := rfl

@[simp] theorem Object.geometry_mk (u m g c x t) : (Object.mk u m g c x t).geometry = g := rfl

@[simp] theorem Object.children_mk (u m g c x t) : (Object.mk u m g c x t).children = c := rfl

@[simp] theorem Object.matrix_mk (u m g c x t) : (Object.mk u m g c x t).matrix = x := rfl

@[simp] theorem Object.object_type_mk (u m g c x t) : (Object.mk u m g c x t).object_type = t := rfl

/-- `Object::new(origin, object_type)`: fresh identifier, no material or
geometry reference, no children, homogeneous matrix of the origin. -/
def Object.new (uuid : Uuid) (origin : Iso3) (object_type : ObjectType) : Object :=
  .mk uuid none none [] origin.toHomogeneous object_type

/-- `Object::default() = Object::new(Isometry3::identity(), ObjectType::Mesh)`. -/
def Object.newDefault (uuid : Uuid) : Object :=
  Object.new uuid Iso3.identity .Mesh

/-- `struct Geometry`: identifier, variant, local origin pose. -/
structure Geometry where
  uuid : Uuid
  geometry : GeometryType
  origin : Iso3
deriving DecidableEq, Repr

/-- `struct LumpedObject`: the aggregate handed to `set_object`. -/
structure LumpedObject where
  metadata : Metadata
  texture : Option Texture
  image : Option Image
  geometries : List Geometry
  material : Material
  object : Object

/-! ## Scene assembler (`LumpedObjectBuilder::build`, src/types.rs lines 425-473) -/

/-- First wiring step of `build`: if both an image and a texture are present
and the texture is the image-mapped variant, set the texture's image
reference to the image's identifier; otherwise the texture passes through
unchanged. -/
def wireTexture (image : Option Image) (texture : Option Texture) : Option Texture :=
  match image, texture with
  | some img, some t =>
      match t.texture_type with
      | .Image _ rep wr => some ⟨t.uuid, .Image (some img.uuid) rep wr⟩
      | .Text _ _ _ _ => some t
  | _, t => t

def buildTexture (lo : LumpedObject) : Option Texture :=
  wireTexture lo.image lo.texture

/-- Second wiring step of `build`: if a texture is present, the material's
`map` reference is set to the texture's identifier. -/
def buildMaterial (lo : LumpedObject) : Material :=
  match buildTexture lo with
  | some t => { lo.material with map := some t.uuid }
  | none => lo.material

/-- The synthesized child pose: the geometry's authored origin, composed on
the right with the 90-degree X rotation for cylinders only (meshcat
cylinders have their long axis in y). -/
def childPose (g : Geometry) : Iso3 :=
  match g.geometry with
  | .Cylinder .. => Iso3.comp g.origin rotX90
  | _ => g.origin

/-- The child objects synthesized by `build`, one per geometry in order:
fresh identifier (drawn from the supply by position), geometry reference to
that geometry, material reference to the shared material, no grandchildren,
pose matrix from `childPose`, the root's variant. -/
def mkChildren (fresh : Nat → Uuid) (matUuid : Uuid) (otype : ObjectType) :
    Nat → List Geometry → List Object
  | _, [] => []
  | i, g :: gs =>
      Object.mk (fresh i) (some matUuid) (some g.uuid) [] (childPose g).toHomogeneous otype
        :: mkChildren fresh matUuid otype (i + 1) gs

/-- `LumpedObjectBuilder::build` (src/types.rs lines 425-473).  The
typed-builder pattern only requires the `geometries` field to have been
set; `fresh` supplies the `Uuid::new_v4()` values drawn for the children.
The root object keeps its identifier, geometry reference, matrix and
variant; its material reference and children are (re)assigned. -/
def LumpedObjectBuilder.build (fresh : Nat → Uuid) (lo : LumpedObject) : LumpedObject :=
  ⟨lo.metadata,
   buildTexture lo,
   lo.image,
   lo.geometries,
   buildMaterial lo,
   Object.mk lo.object.uuid (some (buildMaterial lo).uuid) lo.object.geometry
     (mkChildren fresh (buildMaterial lo).uuid lo.object.object_type 0 lo.geometries)
     lo.object.matrix lo.object.object_type⟩

/-! ## Wire model

msgpack values produced by `rmp_serde::encode::to_vec_named` (name-keyed
map encoding), abstracted as a JSON-like value tree. -/

inductive WireJson where
  | num (q : ℚ)
  | str (s : String)
  | bool (b : Bool)
  | arr (l : List WireJson)
  | obj (fields : List (String × WireJson))

def WireJson.isNum : WireJson → Bool
  | .num _ => true
  | _ => false

def WireJson.lookupField : WireJson → String → Option WireJson
  | .obj fields, k => fields.lookup k
  | _, _ => none

/-- The handwritten `Serialize` impl for `BufferGeometryAttribute`
(src/types.rs lines 35-48): four named fields, the `array` field emitted
via `as_slice` (flat column-major elements), deliberately not nalgebra's
default matrix encoding which appends the row and column counts. -/
def BufferGeometryAttribute.serialize (a : BufferGeometryAttribute) : WireJson :=
  .obj [("itemSize", .num (a.item_size : ℚ)),
        ("type", .str a.attribute_type),
        ("array", .arr ((matrixAsSlice a.array).map WireJson.num)),
        ("normalized", .bool a.normalized)]

/-! ## Command envelopes (src/types.rs lines 475-551 and 650-721) -/

/-- `struct SetTransformData`. -/
structure SetTransformData where
  matrix : Mat4
  path : String
  request_type : String

/-- `SetTransformData::new`. -/
def SetTransformData.new (matrix : Iso3) (path : String) : SetTransformData :=
  ⟨matrix.toHomogeneous, path, "set_transform"⟩

/-- `struct SetObjectData`. -/
structure SetObjectData where
  object : LumpedObject
  path : String
  request_type : String

/-- The `SetObjectData` literal constructed inside `Meshcat::set_object`. -/
def SetObjectData.new (object : LumpedObject) (path : String) : SetObjectData :=
  ⟨object, path, "set_object"⟩

/-- `struct DeleteData`. -/
structure DeleteData where
  path : String
  request_type : String

/-- The `DeleteData` literal constructed inside `Meshcat::delete`. -/
def DeleteData.new (path : String) : DeleteData :=
  ⟨path, "delete"⟩

/-- `enum PropertyType` (src/types.rs lines 509-521), nine variants. -/
inductive PropertyType where
  | Visible (b : Bool)
  | Position (v : Vec3Q)
  | Quaternion (v : Vec4Q)
  | Scale (v : Vec3Q)
  | Color (v : Vec4Q)
  | Opacity (q : ℚ)
  | ModulatedOpacity (q : ℚ)
  | TopColor (v : Vec3Q)
  | BottomColor (v : Vec3Q)
deriving DecidableEq, Repr

/-- The serde `untagged` wire encoding of a `PropertyType` value: a bare
bool, a bare element sequence (3 or 4 numbers), or a bare scalar — never an
object carrying a type tag. -/
def PropertyType.wireValue : PropertyType → WireJson
  | .Visible b => .bool b
  | .Position v => .arr [.num v.x, .num v.y, .num v.z]
  | .Quaternion v => .arr [.num v.x, .num v.y, .num v.z, .num v.w]
  | .Scale v => .arr [.num v.x, .num v.y, .num v.z]
  | .Color v => .arr [.num v.x, .num v.y, .num v.z, .num v.w]
  | .Opacity q => .num q
  | .ModulatedOpacity q => .num q
  | .TopColor v => .arr [.num v.x, .num v.y, .num v.z]
  | .BottomColor v => .arr [.num v.x, .num v.y, .num v.z]

/-- Classification of a wire value's shape, as a decoder would see it. -/
inductive WireShape where
  | boolShape
  | vec3Shape
  | vec4Shape
  | scalarShape
  | otherShape
deriving DecidableEq, Repr

def WireJson.shape : WireJson → WireShape
  | .bool _ => .boolShape
  | .num _ => .scalarShape
  | .arr l =>
      if l.length == 3 && l.all WireJson.isNum then .vec3Shape
      else if l.length == 4 && l.all WireJson.isNum then .vec4Shape
      else .otherShape
  | _ => .otherShape

/-- `struct SetPropertyData`. -/
structure SetPropertyData where
  path : String
  request_type : String
  property : String
  value : PropertyType

/-- `SetPropertyData::new` (src/types.rs lines 532-551): fixed per-variant
property name, the value stored as given. -/
def SetPropertyData.new (path : String) (property : PropertyType) : SetPropertyData :=
  ⟨path, "set_property",
   match property with
   | .Visible _ => "visible"
   | .Position _ => "position"
   | .Quaternion _ => "quaternion"
   | .Scale _ => "scale"
   | .Color _ => "color"
   | .Opacity _ => "opacity"
   | .ModulatedOpacity _ => "modulated_opacity"
   | .TopColor _ => "top_color"
   | .BottomColor _ => "bottom_color",
   property⟩

/-! ## Utilities (src/utils.rs) and `Image::new` -/

/-- Rust's `str::split('.')`: splits at every dot; always yields at least
one (possibly empty) segment. -/
def splitOnDot : List Char → List (List Char)
  | [] => [[]]
  | c :: rest =>
      match splitOnDot rest with
      | [] => [[]]
      | h :: t => if c = '.' then [] :: h :: t else (c :: h) :: t

/-- `file_extension` (src/utils.rs lines 6-8):
`Ok(path.split('.').last().ok_or("Invalid file extension")?)`. -/
def file_extension (path : List Char) : Except String (List Char) :=
  match (splitOnDot path).getLast? with
  | some ext => .ok ext
  | none => .error "Invalid file extension"

def base64Alphabet : List Char :=
  ("ABCDEFGHIJKLMNOPQRSTUVWXYZabcdefghijklmnopqrstuvwxyz0123456789+/").toList

def b64char (n : Nat) : Char := base64Alphabet.getD n 'A'

/-- RFC 4648 standard base64 with padding, as used by
`base64::engine::general_purpose::STANDARD.encode_string`. -/
def base64Encode : List Nat → List Char
  | [] => []
  | [b1] => [b64char (b1 / 4), b64char (b1 % 4 * 16), '=', '=']
  | [b1, b2] => [b64char (b1 / 4), b64char (b1 % 4 * 16 + b2 / 16), b64char (b2 % 16 * 4), '=']
  | b1 :: b2 :: b3 :: rest =>
      b64char (b1 / 4) :: b64char (b1 % 4 * 16 + b2 / 16)
        :: b64char (b2 % 16 * 4 + b3 / 64) :: b64char (b3 % 64)
        :: base64Encode rest

/-- The panics of `Image::new`, surfaced as error values:
`"Unsupported image type"` and `"Unable to load file"`. -/
inductive ImageError where
  | unsupportedMedia
  | loadFailure
deriving DecidableEq, Repr

/-- `Image::new` (src/types.rs lines 302-321): match on
`file_extension(url)`; only `Ok("png")` proceeds (any other extension, or
an error, panics with "Unsupported image type"); the png branch reads the
file (`readFile`, a panic on failure) and produces the data URI
`"data:image/png;base64," ++ base64(bytes)`. -/
def Image.new (readFile : List Char → Option (List Nat)) (fresh : Uuid)
    (url : List Char) : Except ImageError Image :=
  match file_extension url with
  | .ok e =>
      if e = ("png").toList then
        match readFile url with
        | some bytes => .ok ⟨fresh, ("data:image/png;base64,").toList ++ base64Encode bytes⟩
        | none => .error .loadFailure
      else .error .unsupportedMedia
  | .error _ => .error .unsupportedMedia

/-! ## Helper lemmas about the assembler -/

theorem mkChildren_length (fresh : Nat → Uuid) (m : Uuid) (o : ObjectType) :
    ∀ (gs : List Geometry) (j : Nat), (mkChildren fresh m o j gs).length = gs.length := by
  intro gs
  induction gs with
  | nil => intro j; rfl
  | cons g gs ih => intro j; simpa [mkChildren] using ih (j + 1)

theorem mkChildren_get?_spec (fresh : Nat → Uuid) (m : Uuid) (o : ObjectType) :
    ∀ (gs : List Geometry) (j i : Nat) (g : Geometry), gs.get? i = some g →
      ∃ c, (mkChildren fresh m o j gs).get? i = some c ∧
        c.geometry = some g.uuid ∧ c.material = some m ∧
        c.matrix = (childPose g).toHomogeneous ∧ c.children = [] := by
  intro gs
  induction gs with
  | nil => intro j i g h; simp at h
  | cons g0 gs ih =>
      intro j i g h
      cases i with
      | zero =>
          rw [List.get?_cons_zero] at h
          cases h
          exact ⟨_, rfl, rfl, rfl, rfl, rfl⟩
      | succ i =>
          rw [List.get?_cons_succ] at h
          exact ih (j + 1) i g h

theorem buildMaterial_uuid (lo : LumpedObject) : (buildMaterial lo).uuid = lo.material.uuid := by
  unfold buildMaterial
  cases buildTexture lo <;> rfl

/-! ## Concrete fixtures used by witnesses and counterexamples -/

def fresh10 : Nat → Uuid := fun n => n + 10

def boxGeom : Geometry := ⟨2, .Box 1 1 1, Iso3.identity⟩

def cylGeom : Geometry := ⟨3, .Cylinder (1 / 5) (1 / 5) (1 / 2) 20 10 0 7, Iso3.identity⟩

def twoGeomLO : LumpedObject :=
  ⟨Metadata.default, none, none, [boxGeom, cylGeom], Material.builderDefault 0,
   Object.newDefault 1⟩

def emptyGeomLO : LumpedObject :=
  ⟨Metadata.default, none, none, [], Material.builderDefault 0, Object.newDefault 1⟩

/-! ## Claim theorems -/

/-- C1: building a `LumpedObject` from a non-empty ordered list of N
geometries yields a root `Object` owning exactly N children in list order;
child i's geometry reference equals geometry i's identifier, child i's
material reference equals the aggregate's material identifier, and the
root's material reference also equals that identifier. -/
theorem build_wires_children (fresh : Nat → Uuid) (lo : LumpedObject)
    (_hne : lo.geometries ≠ []) :
    ((LumpedObjectBuilder.build fresh lo).object).children.length = lo.geometries.length ∧
    (∀ i g, lo.geometries.get? i = some g →
      ∃ c, ((LumpedObjectBuilder.build fresh lo).object).children.get? i = some c ∧
        c.geometry = some g.uuid ∧
        c.material = some ((LumpedObjectBuilder.build fresh lo).material).uuid) ∧
    ((LumpedObjectBuilder.build fresh lo).object).material
      = some ((LumpedObjectBuilder.build fresh lo).material).uuid := by
  refine ⟨?_, ?_, rfl⟩
  · simpa [LumpedObjectBuilder.build]
      using mkChildren_length fresh (buildMaterial lo).uuid lo.object.object_type lo.geometries 0
  · intro i g h
    obtain ⟨c, hc, hg, hm, _, _⟩ :=
      mkChildren_get?_spec fresh (buildMaterial lo).uuid lo.object.object_type lo.geometries 0 i g h
    exact ⟨c, by simpa [LumpedObjectBuilder.build] using hc, hg, hm⟩

theorem build_wires_children_witness :
    twoGeomLO.geometries ≠ [] ∧
    ((LumpedObjectBuilder.build fresh10 twoGeomLO).object).children.length
      = twoGeomLO.geometries.length :=
  ⟨by decide, (build_wires_children fresh10 twoGeomLO (by decide)).1⟩

/-- C2 counterexample: the code has no `EmptyScene` failure path.  The
typed-builder only requires the `geometries` field to have been set; an
empty vector is accepted and `build` returns a complete aggregate (with an
empty children list) instead of refusing assembly. -/
theorem build_empty_geometries_counterexample :
    LumpedObjectBuilder.build fresh10 emptyGeomLO
      = ⟨Metadata.default, none, none, [], Material.builderDefault 0,
         Object.mk 1 (some 0) none [] Iso3.identity.toHomogeneous .Mesh⟩ := rfl

/-- C2 amended: building from an empty geometry sequence succeeds (no error
is raised and an aggregate is produced); the resulting root `Object` simply
owns zero children. -/
theorem build_empty_geometries_amended (fresh : Nat → Uuid) (lo : LumpedObject)
    (h : lo.geometries = []) :
    ((LumpedObjectBuilder.build fresh lo).object).children = [] ∧
    (LumpedObjectBuilder.build fresh lo).geometries = [] := by
  constructor
  · simp [LumpedObjectBuilder.build, h, mkChildren]
  · simpa [LumpedObjectBuilder.build] using h

theorem build_empty_geometries_amended_witness :
    ((LumpedObjectBuilder.build fresh10 emptyGeomLO).object).children = [] ∧
    (LumpedObjectBuilder.build fresh10 emptyGeomLO).geometries = [] :=
  build_empty_geometries_amended fresh10 emptyGeomLO rfl

/-- C3: the synthesized child pose matrix is the homogeneous form of the
geometry's authored origin composed (on the right, i.e. applied first in
nalgebra's convention) with the 90-degree X rotation exactly when the
geometry is the Cylinder variant, and of the unchanged origin otherwise. -/
theorem build_child_pose (fresh : Nat → Uuid) (lo : LumpedObject) (i : Nat) (g : Geometry)
    (hg : lo.geometries.get? i = some g) :
    ∃ c, ((LumpedObjectBuilder.build fresh lo).object).children.get? i = some c ∧
      c.matrix = (if g.geometry.isCylinder then Iso3.comp g.origin rotX90
                  else g.origin).toHomogeneous := by
  obtain ⟨c, hc, _, _, hx, _⟩ :=
    mkChildren_get?_spec fresh (buildMaterial lo).uuid lo.object.object_type lo.geometries 0 i g hg
  refine ⟨c, by simpa [LumpedObjectBuilder.build] using hc, ?_⟩
  rw [hx]
  congr 1
  obtain ⟨u, gt, o⟩ := g
  cases gt <;> rfl

theorem build_child_pose_witness :
    ∃ c, ((LumpedObjectBuilder.build fresh10 twoGeomLO).object).children.get? 1 = some c ∧
      c.matrix = (if cylGeom.geometry.isCylinder then Iso3.comp cylGeom.origin rotX90
                  else cylGeom.origin).toHomogeneous :=
  build_child_pose fresh10 twoGeomLO 1 cylGeom rfl

/-- C10: assembly only reassigns the root object's material reference and
children list; its identifier, pose matrix and variant are exactly as
supplied, and a root whose geometry reference is unset (as produced by
`Object::new`) keeps it unset. -/
theorem build_preserves_root (fresh : Nat → Uuid) (lo : LumpedObject)
    (hg : lo.object.geometry = none) :
    ((LumpedObjectBuilder.build fresh lo).object).uuid = lo.object.uuid ∧
    ((LumpedObjectBuilder.build fresh lo).object).matrix = lo.object.matrix ∧
    ((LumpedObjectBuilder.build fresh lo).object).object_type = lo.object.object_type ∧
    ((LumpedObjectBuilder.build fresh lo).object).geometry = none ∧
    (LumpedObjectBuilder.build fresh lo).metadata = lo.metadata ∧
    (LumpedObjectBuilder.build fresh lo).geometries = lo.geometries :=
  ⟨rfl, rfl, rfl, hg, rfl, rfl⟩

theorem build_preserves_root_witness :
    ((LumpedObjectBuilder.build fresh10 twoGeomLO).object).uuid = twoGeomLO.object.uuid ∧
    ((LumpedObjectBuilder.build fresh10 twoGeomLO).object).matrix = twoGeomLO.object.matrix ∧
    ((LumpedObjectBuilder.build fresh10 twoGeomLO).object).object_type
      = twoGeomLO.object.object_type ∧
    ((LumpedObjectBuilder.build fresh10 twoGeomLO).object).geometry = none ∧
    (LumpedObjectBuilder.build fresh10 twoGeomLO).metadata = twoGeomLO.metadata ∧
    (LumpedObjectBuilder.build fresh10 twoGeomLO).geometries = twoGeomLO.geometries :=
  build_preserves_root fresh10 twoGeomLO rfl

def TextureType.isImageMapped : TextureType → Bool
  | .Image .. => true
  | _ => false

def textTexLO : LumpedObject :=
  ⟨Metadata.default,
   some ⟨5, TextureType.new_text ("hi") 12 ("sans-serif")⟩,
   some ⟨6, ("x.png").toList⟩,
   [⟨2, .Box 1 1 1, Iso3.identity⟩],
   Material.builderDefault 0, Object.newDefault 1⟩

/-- C4 counterexample: with an image AND a texture both supplied but the
texture being the text variant, the resulting texture is not the
image-mapped variant — the assembler leaves a text texture unchanged, so
the claim's unconditional "the resulting LumpedObject's texture is the
image-mapped variant" fails at this input. -/
theorem build_text_texture_counterexample :
    textTexLO.image = some ⟨6, ("x.png").toList⟩ ∧
    textTexLO.texture = some ⟨5, TextureType.new_text ("hi") 12 ("sans-serif")⟩ ∧
    ((LumpedObjectBuilder.build fresh10 textTexLO).texture.map
      (fun t => t.texture_type.isImageMapped)) = some false ∧
    (LumpedObjectBuilder.build fresh10 textTexLO).texture
      = some ⟨5, TextureType.new_text ("hi") 12 ("sans-serif")⟩ :=
  ⟨rfl, rfl, rfl, rfl⟩

/-- C4 amended: when both an image and a texture are supplied AND the
texture is the image-mapped variant, the result's texture is image-mapped
with its image reference equal to the image's identifier and the material's
map reference equals the texture's identifier; when no texture is supplied
(the material's map being absent as every builder-made material's is), the
map reference stays absent. -/
theorem build_texture_wiring (fresh : Nat → Uuid) (lo : LumpedObject) :
    (∀ img t iu rep wr, lo.image = some img → lo.texture = some t →
        t.texture_type = TextureType.Image iu rep wr →
        (LumpedObjectBuilder.build fresh lo).texture
          = some ⟨t.uuid, TextureType.Image (some img.uuid) rep wr⟩ ∧
        ((LumpedObjectBuilder.build fresh lo).material).map = some t.uuid) ∧
    (lo.texture = none → lo.material.map = none →
        ((LumpedObjectBuilder.build fresh lo).material).map = none) := by
  constructor
  · intro img t iu rep wr hi ht htt
    constructor
    · simp [LumpedObjectBuilder.build, buildTexture, wireTexture, hi, ht, htt]
    · simp [LumpedObjectBuilder.build, buildMaterial, buildTexture, wireTexture, hi, ht, htt]
  · intro ht hm
    cases hi : lo.image <;>
      simp [LumpedObjectBuilder.build, buildMaterial, buildTexture, wireTexture, hi, ht, hm]

def imgTexLO : LumpedObject :=
  ⟨Metadata.default, some ⟨5, TextureType.new_image⟩, some ⟨6, ("x.png").toList⟩,
   [⟨2, .Box 1 1 1, Iso3.identity⟩], Material.builderDefault 0, Object.newDefault 1⟩

theorem build_texture_wiring_witness :
    ((LumpedObjectBuilder.build fresh10 imgTexLO).texture
        = some ⟨5, TextureType.Image (some 6) (1, 1) (1001, 1001)⟩ ∧
      ((LumpedObjectBuilder.build fresh10 imgTexLO).material).map = some 5) ∧
    ((LumpedObjectBuilder.build fresh10 twoGeomLO).material).map = none :=
  ⟨(build_texture_wiring fresh10 imgTexLO).1 ⟨6, ("x.png").toList⟩ ⟨5, TextureType.new_image⟩
      none (1, 1) (1001, 1001) rfl rfl rfl,
   (build_texture_wiring fresh10 twoGeomLO).2 rfl rfl⟩

/-- C5: `SetPropertyData` construction is a total, fixed mapping over the
nine property variants: the encoded property name is exactly the per-variant
fixed name, the value is stored as given, and its untagged wire encoding has
the per-variant fixed shape (bool / 3-vector / 4-vector / scalar); in
particular the Quaternion variant always yields name "quaternion" and a
4-vector, never a scalar or boolean. -/
theorem set_property_fixed_mapping (path : String) (p : PropertyType) :
    (SetPropertyData.new path p).value = p ∧
    ((SetPropertyData.new path p).property,
      ((SetPropertyData.new path p).value).wireValue.shape)
      = match p with
        | .Visible _ => (("visible"), WireShape.boolShape)
        | .Position _ => (("position"), WireShape.vec3Shape)
        | .Quaternion _ => (("quaternion"), WireShape.vec4Shape)
        | .Scale _ => (("scale"), WireShape.vec3Shape)
        | .Color _ => (("color"), WireShape.vec4Shape)
        | .Opacity _ => (("opacity"), WireShape.scalarShape)
        | .ModulatedOpacity _ => (("modulated_opacity"), WireShape.scalarShape)
        | .TopColor _ => (("top_color"), WireShape.vec3Shape)
        | .BottomColor _ => (("bottom_color"), WireShape.vec3Shape) := by
  cases p <;> exact ⟨rfl, rfl⟩

/-- C6: every command envelope's `request_type` discriminant is exactly the
fixed string of its kind: "set_transform", "set_object", "set_property",
"delete". -/
theorem request_type_discriminants (path : String) (m : Iso3) (lo : LumpedObject)
    (p : PropertyType) :
    (SetTransformData.new m path).request_type = "set_transform" ∧
    (SetObjectData.new lo path).request_type = "set_object" ∧
    (SetPropertyData.new path p).request_type = "set_property" ∧
    (DeleteData.new path).request_type = "delete" :=
  ⟨rfl, rfl, rfl, rfl⟩

theorem matrixAsSlice_length : ∀ (m : Matrix3xX), (matrixAsSlice m).length = 3 * m.length := by
  intro m
  induction m with
  | nil => rfl
  | cons c m ih => simp [matrixAsSlice, ih]; omega

/-- C7: the handwritten serializer encodes the `array` field of a
`BufferGeometryAttribute` as the flat numeric sequence of the matrix's
elements (column-major `as_slice`), of length exactly 3 times the column
count and containing only numbers — the row/column shape metadata that
nalgebra's default encoding would append is stripped. -/
theorem buffer_attribute_array_flat (a : BufferGeometryAttribute) :
    (BufferGeometryAttribute.serialize a).lookupField ("array")
      = some (WireJson.arr ((matrixAsSlice a.array).map WireJson.num)) ∧
    ((matrixAsSlice a.array).map WireJson.num).length = 3 * a.array.length ∧
    ∀ v ∈ (matrixAsSlice a.array).map WireJson.num, v.isNum = true := by
  refine ⟨rfl, ?_, ?_⟩
  · simpa using matrixAsSlice_length a.array
  · intro v hv
    obtain ⟨q, _, hq⟩ := List.mem_map.mp hv
    rw [← hq]
    rfl

/-! ## Lemmas about `splitOnDot` and `file_extension` -/

theorem splitOnDot_ne_nil : ∀ (l : List Char), splitOnDot l ≠ [] := by
  intro l
  cases l with
  | nil => simp [splitOnDot]
  | cons c rest =>
      cases h : splitOnDot rest with
      | nil => simp [splitOnDot, h]
      | cons a t => by_cases hc : c = '.' <;> simp [splitOnDot, h, hc]

theorem splitOnDot_no_dot : ∀ (l : List Char), '.' ∉ l → splitOnDot l = [l] := by
  intro l
  induction l with
  | nil => intro _; rfl
  | cons c rest ih =>
      intro h
      have hc : c ≠ '.' := fun hq => h (hq ▸ List.mem_cons_self c rest)
      have hr : '.' ∉ rest := fun hm => h (List.mem_cons_of_mem c hm)
      simp [splitOnDot, ih hr, hc]

theorem splitOnDot_two_le : ∀ (l : List Char), '.' ∈ l → 2 ≤ (splitOnDot l).length := by
  intro l
  induction l with
  | nil => intro h; cases h
  | cons c rest ih =>
      intro h
      obtain ⟨h1, t1, ht⟩ := List.exists_cons_of_ne_nil (splitOnDot_ne_nil rest)
      by_cases hc : c = '.'
      · simp [splitOnDot, ht, hc]
      · have hr : '.' ∈ rest := by
          rcases List.mem_cons.mp h with h' | h'
          · exact absurd h'.symm hc
          · exact h'
        have h2 := ih hr
        rw [ht] at h2
        simp at h2
        simp [splitOnDot, ht, hc]
        omega

theorem splitOnDot_append_dot : ∀ (a b : List Char),
    (splitOnDot (a ++ '.' :: b)).getLast? = (splitOnDot b).getLast? := by
  intro a b
  induction a with
  | nil =>
      obtain ⟨h1, t1, ht⟩ := List.exists_cons_of_ne_nil (splitOnDot_ne_nil b)
      simp [splitOnDot, ht, List.getLast?_cons_cons]
  | cons c a ih =>
      obtain ⟨h1, t1, ht⟩ := List.exists_cons_of_ne_nil (splitOnDot_ne_nil (a ++ '.' :: b))
      by_cases hc : c = '.'
      · rw [← ih]
        simp [splitOnDot, ht, hc, List.getLast?_cons_cons]
      · have hmem : '.' ∈ a ++ '.' :: b := List.mem_append_right a (List.mem_cons_self _ _)
        have h2 := splitOnDot_two_le _ hmem
        rw [ht] at h2
        obtain ⟨h1b, t2, ht2⟩ : ∃ x xs, t1 = x :: xs := by
          cases t1 with
          | nil => simp at h2
          | cons x xs => exact ⟨x, xs, rfl⟩
        rw [← ih]
        subst ht2
        simp [splitOnDot, ht, hc, List.getLast?_cons_cons]

/-- C9: `file_extension` is total in `Ok`: the "Invalid file extension"
error branch is unreachable (Rust's `split` always yields at least one
segment, so `.last()` is always `Some`); on a dot-free input it returns the
whole input, and on an input of the form `a ++ "." ++ b` with `b` dot-free
it returns `b`, the substring after the last dot. -/
theorem file_extension_total (p : List Char) :
    (∃ t, file_extension p = .ok t) ∧
    ('.' ∉ p → file_extension p = .ok p) ∧
    (∀ a b, p = a ++ '.' :: b → '.' ∉ b → file_extension p = .ok b) := by
  refine ⟨?_, ?_, ?_⟩
  · obtain ⟨h1, t1, ht⟩ := List.exists_cons_of_ne_nil (splitOnDot_ne_nil p)
    cases hl : (splitOnDot p).getLast? with
    | none =>
        rw [ht] at hl
        simp at hl
    | some t => exact ⟨t, by simp [file_extension, hl]⟩
  · intro h
    simp [file_extension, splitOnDot_no_dot p h]
  · intro a b hp hb
    subst hp
    simp [file_extension, splitOnDot_append_dot a b, splitOnDot_no_dot b hb]

theorem file_extension_total_witness :
    file_extension (("foo.png").toList) = .ok (("png").toList) :=
  (file_extension_total (("foo.png").toList)).2.2 (("foo").toList) (("png").toList)
    (by decide) (by decide)

/-- C8: `Image::new` fails with the unsupported-media condition (the
"Unsupported image type" panic) for every path whose extension — as
computed by `file_extension` — is not "png"; for a png path with readable
bytes it produces exactly the data URI `"data:image/png;base64,"` followed
by the standard base64 encoding of the file bytes.  There is no silent
fallback branch. -/
theorem image_new_spec (readFile : List Char → Option (List Nat)) (fresh : Uuid)
    (url : List Char) :
    (∀ e, file_extension url = .ok e → e ≠ ("png").toList →
        Image.new readFile fresh url = .error .unsupportedMedia) ∧
    (∀ bytes, file_extension url = .ok (("png").toList) → readFile url = some bytes →
        Image.new readFile fresh url
          = .ok ⟨fresh, ("data:image/png;base64,").toList ++ base64Encode bytes⟩) := by
  constructor
  · intro e he hne
    simp [Image.new, he]
    intro hcontra
    exact absurd hcontra hne
  · intro bytes he hb
    simp [Image.new, he, hb]

def rfPng : List Char → Option (List Nat) :=
  fun p => if p = ("a.png").toList then some [1, 2, 3] else none

theorem image_new_spec_witness :
    Image.new rfPng 7 (("a.txt").toList) = .error .unsupportedMedia ∧
    Image.new rfPng 7 (("a.png").toList)
      = .ok ⟨7, ("data:image/png;base64,").toList ++ base64Encode [1, 2, 3]⟩ :=
  ⟨(image_new_spec rfPng 7 (("a.txt").toList)).1 (("txt").toList) rfl (by decide),
   (image_new_spec rfPng 7 (("a.png").toList)).2 [1, 2, 3] rfl rfl⟩
